import Mathlib

/-!
Shallow embedding of the flare provider monitor (src/main.py, src/agent.py).

Python floats are modelled as rationals (`ℚ`); Python `None`-or-string values
as `Option String`; exceptions as `Except`; the external browser agent and the
Telegram HTTP call as explicit outcome parameters.  Environment variables are
passed as explicit `Option String` arguments.
-/

namespace FlareMonitor

/-- Python truthiness for an optional string: `None` and `""` are falsy. -/
def pyTruthy : Option String → Bool
  | none => false
  | some s => !s.isEmpty

/-- Numeric value of a list of decimal digit characters. -/
def digitsVal (cs : List Char) : Nat :=
  cs.foldl (fun a c => 10 * a + (c.toNat - Char.toNat '0')) 0

/-- Every character is a decimal digit. -/
def allDigits (cs : List Char) : Bool := cs.all Char.isDigit

/-- Model of Python `int(s)` on plain decimal strings: an optional sign
followed by one or more digits; anything else raises, modelled as `none`. -/
def parsePyInt (s : String) : Option Int :=
  match s.toList with
  | [] => none
  | List.cons '-' rest =>
      if rest ≠ [] ∧ allDigits rest then some (-(digitsVal rest : Int)) else none
  | List.cons '+' rest =>
      if rest ≠ [] ∧ allDigits rest then some ((digitsVal rest : Int)) else none
  | cs => if allDigits cs then some ((digitsVal cs : Int)) else none

/-- Unsigned part of Python `float(s)`: digits, optionally followed by a dot
and more digits, with at least one digit overall. -/
def parseUnsignedFloat (cs : List Char) : Option ℚ :=
  let intPart := cs.takeWhile Char.isDigit
  let rest := cs.dropWhile Char.isDigit
  match rest with
  | [] => if intPart ≠ [] then some ((digitsVal intPart : ℚ)) else none
  | List.cons '.' frac =>
      if allDigits frac ∧ (intPart ≠ [] ∨ frac ≠ []) then
        some ((digitsVal intPart : ℚ) + (digitsVal frac : ℚ) / ((10 : ℚ) ^ frac.length))
      else none
  | _ => none

/-- Model of Python `float(s)` on plain decimal literals (an optional sign,
digits, an optional fractional part); exponent, `inf` and `nan` forms are not
used by this program's configuration and are modelled as unparsable. -/
def parsePyFloat (s : String) : Option ℚ :=
  match s.toList with
  | List.cons '-' rest => (parseUnsignedFloat rest).map (fun q => -q)
  | List.cons '+' rest => parseUnsignedFloat rest
  | cs => parseUnsignedFloat cs

/-! ### Data model (src/agent.py pydantic schema) -/

/-- `RewardEpochInfo` pydantic model: the primary/secondary success-rate pair. -/
structure RewardEpochInfo where
  primary : ℚ
  secondary : ℚ
deriving Repr, DecidableEq

/-- `WebpageInfo` pydantic model: the MetricsSnapshot of the spec. -/
structure WebpageInfo where
  availability_6h : ℚ
  availability_24h : ℚ
  success_rate_6h : RewardEpochInfo
  success_rate_24h : RewardEpochInfo
deriving Repr, DecidableEq

/-! ### Data fetcher (src/agent.py, get_provider_monitor_data) -/

/-- Outcome of `await agent.run()` followed by `history.final_result()`:
either the run throws, or it finishes with an optional result text. -/
inductive AgentRunOutcome
  | throws (msg : String)
  | finished (finalResult : Option String)
deriving Repr, DecidableEq

/-- The distinct raise sites of `get_provider_monitor_data`.  In Python,
`noAddress` is a `ValueError` raised before the try block; the other three are
generic `Exception`s whose message is `FetchError.pythonMessage` (the outer
`except` wraps the inner message). -/
inductive FetchError
  | noAddress
  | agentError (msg : String)
  | noResult
  | parseError (parseMsg : String) (raw : String)
deriving Repr, DecidableEq

/-- Message of the inner parse-failure exception. -/
def parseErrorMessage (parseMsg raw : String) : String :=
  "Error parsing result: " ++ parseMsg ++ ". Raw result: " ++ raw

/-- Message of the inner no-result exception. -/
def noResultMessage : String := "No result was returned from the agent"

/-- The outer `except` of `get_provider_monitor_data` re-wraps every inner
exception message. -/
def wrapMessage (inner : String) : String :=
  "An error occurred while getting provider data: " ++ inner

/-- The Python message `str(e)` of each fetch failure. -/
def FetchError.pythonMessage : FetchError → String
  | .noAddress => "Provider address not provided and PROVIDER_ADDRESS not set in environment"
  | .agentError m => wrapMessage m
  | .noResult => wrapMessage noResultMessage
  | .parseError pm raw => wrapMessage (parseErrorMessage pm raw)

/-- `custom_provider_address or provider_address`: Python `or` yields the
first operand when it is truthy, the second otherwise. -/
def currentProviderAddress (custom envDefault : Option String) : Option String :=
  if pyTruthy custom then custom else envDefault

/-- URL templated into the agent task string. -/
def providerUrl (network address : String) : String :=
  "https://" ++ network ++ "-systems-explorer.flare.network/providers/ftso/" ++ address

/-- `get_provider_monitor_data(custom_provider_address)`.  `envDefault` is the
module-level `provider_address` read from `PROVIDER_ADDRESS`; `run` is the
agent-run outcome; `validate` models the external
`WebpageInfo.model_validate_json`, failing with a pydantic message. -/
def get_provider_monitor_data (custom envDefault : Option String)
    (run : AgentRunOutcome) (validate : String → Except String WebpageInfo) :
    Except FetchError WebpageInfo :=
  let current := currentProviderAddress custom envDefault
  if pyTruthy current then
    match run with
    | .throws m => .error (.agentError m)
    | .finished r =>
        if pyTruthy r then
          match validate (r.getD "") with
          | .ok parsed => .ok parsed
          | .error pm => .error (.parseError pm (r.getD ""))
        else .error .noResult
  else .error .noAddress

/-! ### Thresholds (src/main.py, DEFAULT_THRESHOLDS and get_thresholds) -/

/-- `ThresholdSet`: the six minimums. -/
structure Thresholds where
  min_availability_6h : ℚ
  min_availability_24h : ℚ
  min_success_rate_6h_primary : ℚ
  min_success_rate_6h_secondary : ℚ
  min_success_rate_24h_primary : ℚ
  min_success_rate_24h_secondary : ℚ
deriving Repr, DecidableEq

/-- `DEFAULT_THRESHOLDS` from src/main.py. -/
def DEFAULT_THRESHOLDS : Thresholds :=
  { min_availability_6h := 90
    min_availability_24h := 90
    min_success_rate_6h_primary := 20
    min_success_rate_6h_secondary := 85
    min_success_rate_24h_primary := 20
    min_success_rate_24h_secondary := 85 }

/-- `DEFAULT_MONITORING_INTERVAL = 15 * 60` seconds. -/
def DEFAULT_MONITORING_INTERVAL : Int := 15 * 60

/-- The six threshold-override environment variables
(`MIN_AVAILABILITY_6H`, ...), each `none` when unset. -/
structure ThresholdEnv where
  min_availability_6h : Option String
  min_availability_24h : Option String
  min_success_rate_6h_primary : Option String
  min_success_rate_6h_secondary : Option String
  min_success_rate_24h_primary : Option String
  min_success_rate_24h_secondary : Option String
deriving Repr, DecidableEq

/-- One entry of the `get_thresholds` loop:
`float(env_value) if env_value else default_value`.  A falsy (unset or empty)
variable yields the default; `float` raising on an unparsable string is
modelled as `Except.error`. -/
def thresholdValue (envValue : Option String) (defaultValue : ℚ) : Except String ℚ :=
  if pyTruthy envValue then
    match parsePyFloat (envValue.getD "") with
    | some q => .ok q
    | none => .error ("could not convert string to float: " ++ envValue.getD "")
  else .ok defaultValue

/-- `get_thresholds()`: builds the `Thresholds` in the fixed dict order,
propagating the first `float` conversion error. -/
def get_thresholds (env : ThresholdEnv) : Except String Thresholds := do
  let a6 ← thresholdValue env.min_availability_6h DEFAULT_THRESHOLDS.min_availability_6h
  let a24 ← thresholdValue env.min_availability_24h DEFAULT_THRESHOLDS.min_availability_24h
  let p6 ← thresholdValue env.min_success_rate_6h_primary DEFAULT_THRESHOLDS.min_success_rate_6h_primary
  let s6 ← thresholdValue env.min_success_rate_6h_secondary DEFAULT_THRESHOLDS.min_success_rate_6h_secondary
  let p24 ← thresholdValue env.min_success_rate_24h_primary DEFAULT_THRESHOLDS.min_success_rate_24h_primary
  let s24 ← thresholdValue env.min_success_rate_24h_secondary DEFAULT_THRESHOLDS.min_success_rate_24h_secondary
  return { min_availability_6h := a6
           min_availability_24h := a24
           min_success_rate_6h_primary := p6
           min_success_rate_6h_secondary := s6
           min_success_rate_24h_primary := p24
           min_success_rate_24h_secondary := s24 }

/-! ### Alert dispatcher (src/main.py, send_telegram_alert) -/

/-- Outcome of `requests.post`: a response with an HTTP status, or an
exception (timeout, connection failure, ...). -/
inductive HttpOutcome
  | response (status : Nat)
  | failure (msg : String)
deriving Repr, DecidableEq

/-- The single HTTP request `send_telegram_alert` builds. -/
structure HttpRequest where
  url : String
  chat_id : String
  text : String
  parse_mode : String
  timeoutSeconds : Nat
deriving Repr, DecidableEq

/-- Observable behaviour of one `send_telegram_alert` call: the request made
(`none` when no network call is performed) and the returned boolean. -/
structure SendResult where
  request : Option HttpRequest
  returned : Bool
deriving Repr, DecidableEq

/-- `response.raise_for_status()` raises exactly for 4xx and 5xx statuses. -/
def raiseForStatus (status : Nat) : Bool := 400 ≤ status ∧ status < 600

/-- `send_telegram_alert(message)`.  `token` and `chatId` are the module-level
`TELEGRAM_BOT_TOKEN` and `TELEGRAM_CHAT_ID`; `outcome` is what the single
`requests.post` call does.  The function never raises: the `try` swallows
every exception and returns `False`. -/
def send_telegram_alert (token chatId : Option String) (message : String)
    (outcome : HttpOutcome) : SendResult :=
  if !pyTruthy token || !pyTruthy chatId then
    { request := none, returned := false }
  else
    let req : HttpRequest :=
      { url := "https://api.telegram.org/bot" ++ token.getD "" ++ "/sendMessage"
        chat_id := chatId.getD ""
        text := message
        parse_mode := "Markdown"
        timeoutSeconds := 10 }
    match outcome with
    | .failure _ => { request := some req, returned := false }
    | .response status =>
        if raiseForStatus status then { request := some req, returned := false }
        else { request := some req, returned := true }

/-! ### Threshold evaluation and check_provider_data (src/main.py) -/

/-- Stand-in for Python float interpolation in the alert f-strings.  The
claims depend only on this being a fixed function of the value, not on the
digit rendering, which rationals cannot reproduce exactly. -/
def ratStr (q : ℚ) : String := toString q

/-- Text of one violation: `⚠️ {label} is low: {v}% (threshold: {t}%)`. -/
def alertText (label : String) (v t : ℚ) : String :=
  "⚠️ " ++ label ++ " is low: " ++ ratStr v ++ "% (threshold: " ++ ratStr t ++ "%)"

/-- The six sequential strict-less-than checks of `check_provider_data`,
appending a violation string for each metric below its threshold, in source
order. -/
def evaluateAlerts (d : WebpageInfo) (t : Thresholds) : List String :=
  (if d.availability_6h < t.min_availability_6h then
    [alertText "6h Availability" d.availability_6h t.min_availability_6h] else [])
  ++ (if d.availability_24h < t.min_availability_24h then
    [alertText "24h Availability" d.availability_24h t.min_availability_24h] else [])
  ++ (if d.success_rate_6h.primary < t.min_success_rate_6h_primary then
    [alertText "6h Primary Success Rate" d.success_rate_6h.primary t.min_success_rate_6h_primary] else [])
  ++ (if d.success_rate_6h.secondary < t.min_success_rate_6h_secondary then
    [alertText "6h Secondary Success Rate" d.success_rate_6h.secondary t.min_success_rate_6h_secondary] else [])
  ++ (if d.success_rate_24h.primary < t.min_success_rate_24h_primary then
    [alertText "24h Primary Success Rate" d.success_rate_24h.primary t.min_success_rate_24h_primary] else [])
  ++ (if d.success_rate_24h.secondary < t.min_success_rate_24h_secondary then
    [alertText "24h Secondary Success Rate" d.success_rate_24h.secondary t.min_success_rate_24h_secondary] else [])

/-- `custom_provider_address or os.getenv("PROVIDER_ADDRESS", "Unknown")`. -/
def monitoredAddress (custom envAddr : Option String) : String :=
  if pyTruthy custom then custom.getD "" else envAddr.getD "Unknown"

/-- Value returned by `check_provider_data` together with the Telegram
messages it dispatches on the way. -/
structure CheckResult where
  providerData : Option WebpageInfo
  alerts : List String
  dispatched : List String
deriving Repr, DecidableEq

/-- `check_provider_data(custom_provider_address)`.  `get_thresholds()` runs
before the try block, so its `float` conversion error propagates to the
caller (`Except.error`); everything else is caught by the internal
`except`, which dispatches an error alert and returns `(None, [message])`. -/
def check_provider_data (env : ThresholdEnv) (custom envAddr : Option String)
    (run : AgentRunOutcome) (validate : String → Except String WebpageInfo)
    (now : String) : Except String CheckResult :=
  match get_thresholds env with
  | .error e => .error e
  | .ok thresholds =>
    match get_provider_monitor_data custom envAddr run validate with
    | .ok d =>
        let alerts := evaluateAlerts d thresholds
        if alerts.isEmpty then .ok { providerData := some d, alerts := alerts, dispatched := [] }
        else
          let message := "*FLARE PROVIDER ALERT*\n\nProvider: `" ++ monitoredAddress custom envAddr
            ++ "`\n\n" ++ String.intercalate "\n" alerts ++ "\n\n_Timestamp: " ++ now ++ "_"
          .ok { providerData := some d, alerts := alerts, dispatched := [message] }
    | .error e =>
        let errorMessage := "Error checking provider data: " ++ e.pythonMessage
        .ok { providerData := none
              alerts := [errorMessage]
              dispatched := ["*FLARE PROVIDER MONITOR ERROR*\n\n" ++ errorMessage] }

/-! ### Monitor loop (src/main.py, monitor_loop) -/

/-- `int(os.getenv("MONITORING_INTERVAL", DEFAULT_MONITORING_INTERVAL))`:
the integer default is used only when the variable is absent; a present but
non-integer string makes `int` raise, modelled as `Except.error`. -/
def parseInterval (envInterval : Option String) : Except String Int :=
  match envInterval with
  | none => .ok DEFAULT_MONITORING_INTERVAL
  | some s =>
      match parsePyInt s with
      | some n => .ok n
      | none => .error ("invalid literal for int() with base 10: " ++ s)

/-- How `monitor_loop` starts: the `int` conversion may raise out of the
coroutine; a falsy `PROVIDER_ADDRESS` dispatches an error alert and returns
(the process then exits on its own); otherwise the infinite loop is entered. -/
inductive StartOutcome
  | startupError (msg : String)
  | earlyReturn (dispatched : List String)
  | entersLoop (interval : Int) (address : String)
deriving Repr, DecidableEq

/-- The pre-loop part of `monitor_loop()`. -/
def monitorLoopStart (envInterval envAddr : Option String) : StartOutcome :=
  match parseInterval envInterval with
  | .error m => .startupError m
  | .ok interval =>
      if pyTruthy envAddr then .entersLoop interval (envAddr.getD "")
      else .earlyReturn
        ["*FLARE PROVIDER MONITOR ERROR*\n\nPROVIDER_ADDRESS environment variable is not set!"]

/-- Observable behaviour of one iteration of the `while True` body: the
Telegram messages dispatched, the computed sleep duration in seconds, and
whether the loop continues (it always does — the body is wrapped in
`except Exception`). -/
structure IterationResult where
  dispatched : List String
  sleepSeconds : ℚ
  continues : Bool
deriving Repr, DecidableEq

/-- One iteration of the `while True` body of `monitor_loop`.  `elapsed` is
`time.time() - start_time`.  If `check_provider_data` returns, the loop
sleeps `max(0, interval - elapsed)`; if it raises (threshold parsing), the
`except` branch logs and sleeps 60 seconds, dispatching nothing. -/
def monitorIteration (interval elapsed : ℚ) (env : ThresholdEnv) (address : String)
    (run : AgentRunOutcome) (validate : String → Except String WebpageInfo)
    (now : String) : IterationResult :=
  match check_provider_data env (some address) (some address) run validate now with
  | .ok res =>
      { dispatched := res.dispatched
        sleepSeconds := max 0 (interval - elapsed)
        continues := true }
  | .error _ =>
      { dispatched := [], sleepSeconds := 60, continues := true }

/-! ### Concrete fixtures used by witnesses and counterexamples -/

/-- Environment with no threshold override set. -/
def envNone : ThresholdEnv := { min_availability_6h := none
                                min_availability_24h := none
                                min_success_rate_6h_primary := none
                                min_success_rate_6h_secondary := none
                                min_success_rate_24h_primary := none
                                min_success_rate_24h_secondary := none }

/-- Environment whose `MIN_AVAILABILITY_6H` is set to the unparsable `abc`. -/
def envBad : ThresholdEnv := { envNone with min_availability_6h := some "abc" }

/-- A sample healthy snapshot. -/
def sampleData : WebpageInfo :=
  { availability_6h := 9987/100
    availability_24h := 9945/100
    success_rate_6h := { primary := 488/10, secondary := 9587/100 }
    success_rate_24h := { primary := 466/10, secondary := 9585/100 } }

/-- A validator that always succeeds with `sampleData`. -/
def okValidate : String → Except String WebpageInfo := fun _ => .ok sampleData

/-- A validator that always fails with a fixed pydantic-style message. -/
def failValidate : String → Except String WebpageInfo :=
  fun _ => .error "1 validation error for WebpageInfo"

/-- A snapshot whose 6h availability (85) is below the default threshold (90)
while every other metric is above its default threshold. -/
def lowData : WebpageInfo :=
  { availability_6h := 85
    availability_24h := 95
    success_rate_6h := { primary := 48, secondary := 95 }
    success_rate_24h := { primary := 46, secondary := 95 } }

/-- A validator that always succeeds with `lowData`. -/
def lowValidate : String → Except String WebpageInfo := fun _ => .ok lowData

/-! ### Declarative form of the threshold policy (from the spec's words) -/

/-- One metric/threshold pair with its alert label. -/
structure MetricCheck where
  label : String
  value : ℚ
  threshold : ℚ
deriving Repr, DecidableEq

/-- The spec's fixed evaluation order: availability_6h, availability_24h,
success_6h.primary, success_6h.secondary, success_24h.primary,
success_24h.secondary. -/
def orderedChecks (d : WebpageInfo) (t : Thresholds) : List MetricCheck :=
  [ { label := "6h Availability", value := d.availability_6h, threshold := t.min_availability_6h }
  , { label := "24h Availability", value := d.availability_24h, threshold := t.min_availability_24h }
  , { label := "6h Primary Success Rate", value := d.success_rate_6h.primary,
      threshold := t.min_success_rate_6h_primary }
  , { label := "6h Secondary Success Rate", value := d.success_rate_6h.secondary,
      threshold := t.min_success_rate_6h_secondary }
  , { label := "24h Primary Success Rate", value := d.success_rate_24h.primary,
      threshold := t.min_success_rate_24h_primary }
  , { label := "24h Secondary Success Rate", value := d.success_rate_24h.secondary,
      threshold := t.min_success_rate_24h_secondary } ]

/-! ### Claims -/

/-- C1: threshold evaluation compares each of the six metrics independently
with strict less-than, accumulates violations without short-circuiting, in the
fixed order of `orderedChecks`: the sequential if-append evaluation equals
filtering the fixed ordered list by strict violation and rendering each; and
a cycle with violations preserves exactly that ordered list, joined by
newlines, in the dispatched alert text. -/
theorem threshold_evaluation_fixed_order (d : WebpageInfo) (t : Thresholds) :
    evaluateAlerts d t =
      ((orderedChecks d t).filter (fun c => decide (c.value < c.threshold))).map
        (fun c => alertText c.label c.value c.threshold)
    ∧ (∀ (env : ThresholdEnv) (custom envAddr : Option String) (run : AgentRunOutcome)
        (validate : String → Except String WebpageInfo) (now : String),
        get_thresholds env = .ok t →
        get_provider_monitor_data custom envAddr run validate = .ok d →
        evaluateAlerts d t ≠ [] →
        check_provider_data env custom envAddr run validate now =
          .ok { providerData := some d
                alerts := evaluateAlerts d t
                dispatched := ["*FLARE PROVIDER ALERT*\n\nProvider: `"
                  ++ monitoredAddress custom envAddr ++ "`\n\n"
                  ++ String.intercalate "\n" (evaluateAlerts d t)
                  ++ "\n\n_Timestamp: " ++ now ++ "_"] }) := by
  constructor
  · simp only [evaluateAlerts, orderedChecks, List.filter_cons, List.filter_nil,
      decide_eq_true_eq]
    split_ifs <;> rfl
  · intro env custom envAddr run validate now hth hfetch hne
    simp only [check_provider_data, hth, hfetch]
    rw [if_neg]
    simp only [List.isEmpty_iff]
    exact hne

/-- Witness for C1 at a concrete violating snapshot. -/
theorem threshold_evaluation_fixed_order_witness :
    check_provider_data envNone (some "providerA") (some "providerA")
        (.finished (some "raw")) lowValidate "2026-10-12 00:00:00" =
      .ok { providerData := some lowData
            alerts := evaluateAlerts lowData DEFAULT_THRESHOLDS
            dispatched := ["*FLARE PROVIDER ALERT*\n\nProvider: `"
              ++ monitoredAddress (some "providerA") (some "providerA") ++ "`\n\n"
              ++ String.intercalate "\n" (evaluateAlerts lowData DEFAULT_THRESHOLDS)
              ++ "\n\n_Timestamp: " ++ "2026-10-12 00:00:00" ++ "_"] } :=
  (threshold_evaluation_fixed_order lowData DEFAULT_THRESHOLDS).2 envNone
    (some "providerA") (some "providerA") (.finished (some "raw")) lowValidate
    "2026-10-12 00:00:00" rfl rfl (by decide)

/-- C2: when each of the six metrics is strictly above its threshold,
evaluation yields zero violation strings and the cycle dispatches nothing. -/
theorem all_above_thresholds_no_alerts (d : WebpageInfo) (t : Thresholds)
    (env : ThresholdEnv) (custom envAddr : Option String) (run : AgentRunOutcome)
    (validate : String → Except String WebpageInfo) (now : String)
    (h1 : t.min_availability_6h < d.availability_6h)
    (h2 : t.min_availability_24h < d.availability_24h)
    (h3 : t.min_success_rate_6h_primary < d.success_rate_6h.primary)
    (h4 : t.min_success_rate_6h_secondary < d.success_rate_6h.secondary)
    (h5 : t.min_success_rate_24h_primary < d.success_rate_24h.primary)
    (h6 : t.min_success_rate_24h_secondary < d.success_rate_24h.secondary) :
    evaluateAlerts d t = []
    ∧ (get_thresholds env = .ok t →
        get_provider_monitor_data custom envAddr run validate = .ok d →
        check_provider_data env custom envAddr run validate now =
          .ok { providerData := some d, alerts := [], dispatched := [] }) := by
  have hal : evaluateAlerts d t = [] := by
    simp [evaluateAlerts, lt_asymm h1, lt_asymm h2, lt_asymm h3, lt_asymm h4,
      lt_asymm h5, lt_asymm h6]
  refine ⟨hal, fun hth hfetch => ?_⟩
  simp [check_provider_data, hth, hfetch, hal]

/-- Witness for C2 at the healthy `sampleData` snapshot. -/
theorem all_above_thresholds_no_alerts_witness :
    evaluateAlerts sampleData DEFAULT_THRESHOLDS = []
    ∧ check_provider_data envNone (some "providerA") (some "providerA")
        (.finished (some "raw")) okValidate "ts" =
      .ok { providerData := some sampleData, alerts := [], dispatched := [] } := by
  have h := all_above_thresholds_no_alerts sampleData DEFAULT_THRESHOLDS envNone
    (some "providerA") (some "providerA") (.finished (some "raw")) okValidate "ts"
    (by norm_num [sampleData, DEFAULT_THRESHOLDS])
    (by norm_num [sampleData, DEFAULT_THRESHOLDS])
    (by norm_num [sampleData, DEFAULT_THRESHOLDS])
    (by norm_num [sampleData, DEFAULT_THRESHOLDS])
    (by norm_num [sampleData, DEFAULT_THRESHOLDS])
    (by norm_num [sampleData, DEFAULT_THRESHOLDS])
  exact ⟨h.1, h.2 rfl rfl⟩

/-- Helper: with a truthy resolved address, `get_provider_monitor_data` never
fails with the no-address `ValueError`. -/
lemma gpmd_ne_noAddress_of_truthy (custom envAddr : Option String)
    (run : AgentRunOutcome) (validate : String → Except String WebpageInfo)
    (h : pyTruthy (currentProviderAddress custom envAddr) = true) :
    get_provider_monitor_data custom envAddr run validate ≠ .error .noAddress := by
  simp only [get_provider_monitor_data, h, if_true]
  cases run with
  | throws m => simp
  | finished r =>
    cases hr : pyTruthy r with
    | false => simp [hr]
    | true => rcases hval : validate (r.getD "") with pm | w <;> simp [hr, hval]

/-- C3: the Data Fetcher fails with the `ValueError` (ValidationError-kind)
`noAddress` when the resolved address is falsy; with the AgentError-kind
wrapped exception when the automation run throws; and with the
ParseError-kind wrapped exception when the returned text fails schema
validation — malformed agent output yields that error, never an `.ok`
snapshot. -/
theorem fetcher_error_kinds (custom envAddr : Option String)
    (run : AgentRunOutcome) (validate : String → Except String WebpageInfo)
    (m r pm : String) :
    (pyTruthy (currentProviderAddress custom envAddr) = false →
      get_provider_monitor_data custom envAddr run validate = .error .noAddress)
    ∧ (pyTruthy (currentProviderAddress custom envAddr) = true →
      get_provider_monitor_data custom envAddr (.throws m) validate =
        .error (.agentError m))
    ∧ (pyTruthy (currentProviderAddress custom envAddr) = true → r ≠ "" →
      validate r = .error pm →
      get_provider_monitor_data custom envAddr (.finished (some r)) validate =
        .error (.parseError pm r)) := by
  refine ⟨fun h => ?_, fun h => ?_, fun h hr hval => ?_⟩
  · simp [get_provider_monitor_data, h]
  · simp [get_provider_monitor_data, h]
  · have hre : r.isEmpty = false := by
      rw [Bool.eq_false_iff]
      exact fun hh => hr ((String.isEmpty_iff r).mp hh)
    have hr2 : pyTruthy (some r) = true := by simp [pyTruthy, hre]
    simp [get_provider_monitor_data, h, hr2, hval]

/-- Witness for C3: all three failure kinds at concrete inputs. -/
theorem fetcher_error_kinds_witness :
    get_provider_monitor_data none none (.finished (some "raw")) okValidate =
      .error .noAddress
    ∧ get_provider_monitor_data (some "providerA") none (.throws "browser crashed")
        okValidate = .error (.agentError "browser crashed")
    ∧ get_provider_monitor_data (some "providerA") none (.finished (some "not json"))
        failValidate =
      .error (.parseError "1 validation error for WebpageInfo" "not json") :=
  ⟨(fetcher_error_kinds none none (.finished (some "raw")) okValidate "m" "r" "pm").1 rfl,
   (fetcher_error_kinds (some "providerA") none (.finished (some "raw")) okValidate
      "browser crashed" "r" "pm").2.1 rfl,
   (fetcher_error_kinds (some "providerA") none (.finished (some "not json")) failValidate
      "m" "not json" "1 validation error for WebpageInfo").2.2 rfl (by decide) rfl⟩

/-- C10: a falsy custom address (`None` or `""`) falls back to the
`PROVIDER_ADDRESS` environment default, and the no-address error is raised
exactly when both the argument and the environment default are falsy. -/
theorem falsy_custom_address_fallback (custom envAddr : Option String)
    (run : AgentRunOutcome) (validate : String → Except String WebpageInfo) :
    (pyTruthy custom = false →
      currentProviderAddress custom envAddr = envAddr
      ∧ get_provider_monitor_data custom envAddr run validate =
          get_provider_monitor_data none envAddr run validate)
    ∧ (get_provider_monitor_data custom envAddr run validate = .error .noAddress
        ↔ pyTruthy custom = false ∧ pyTruthy envAddr = false) := by
  constructor
  · intro hc
    have hcc : currentProviderAddress custom envAddr =
        currentProviderAddress none envAddr := by
      simp only [currentProviderAddress]
      rw [hc]
      simp [pyTruthy]
    constructor
    · simp only [currentProviderAddress]
      rw [hc]
      simp
    · simp only [get_provider_monitor_data, hcc]
  · constructor
    · intro h
      cases hc : pyTruthy custom with
      | true =>
        exact absurd h (gpmd_ne_noAddress_of_truthy custom envAddr run validate
          (by simp [currentProviderAddress, hc]))
      | false =>
        cases he : pyTruthy envAddr with
        | true =>
          exact absurd h (gpmd_ne_noAddress_of_truthy custom envAddr run validate
            (by simp [currentProviderAddress, hc, he]))
        | false => exact ⟨rfl, rfl⟩
    · rintro ⟨hc, he⟩
      simp [get_provider_monitor_data, currentProviderAddress, hc, he]

/-- Witness for C10: empty-string custom address falls back to the
environment default, and with both falsy the no-address error results. -/
theorem falsy_custom_address_fallback_witness :
    (currentProviderAddress (some "") (some "envProvider") = some "envProvider"
      ∧ get_provider_monitor_data (some "") (some "envProvider")
          (.finished (some "raw")) okValidate =
        get_provider_monitor_data none (some "envProvider")
          (.finished (some "raw")) okValidate)
    ∧ get_provider_monitor_data (some "") none (.finished (some "raw")) okValidate =
        .error .noAddress :=
  ⟨(falsy_custom_address_fallback (some "") (some "envProvider")
      (.finished (some "raw")) okValidate).1 rfl,
   (falsy_custom_address_fallback (some "") none
      (.finished (some "raw")) okValidate).2.mpr ⟨rfl, rfl⟩⟩

/-- Helper: whenever `get_thresholds` succeeds, `check_provider_data` returns
a value (its internal `except` catches everything else). -/
lemma check_provider_data_isOk (env : ThresholdEnv) (custom envAddr : Option String)
    (run : AgentRunOutcome) (validate : String → Except String WebpageInfo)
    (now : String) (th : Thresholds) (hth : get_thresholds env = .ok th) :
    ∃ r, check_provider_data env custom envAddr run validate now = .ok r := by
  unfold check_provider_data
  rw [hth]
  cases hg : get_provider_monitor_data custom envAddr run validate with
  | error fe => exact ⟨_, rfl⟩
  | ok d =>
    dsimp only
    split
    · exact ⟨_, rfl⟩
    · exact ⟨_, rfl⟩

/-- C5: after a cycle in which `check_provider_data` returns, the loop sleeps
`max(0, interval - elapsed)`; with interval 900 and elapsed 100 the sleep is
800, with elapsed 950 it is 0; the sleep duration is never negative on any
path (the error path sleeps 60). -/
theorem sleep_duration_max (interval elapsed : ℚ) (env : ThresholdEnv)
    (address now : String) (run : AgentRunOutcome)
    (validate : String → Except String WebpageInfo) (th : Thresholds)
    (hth : get_thresholds env = .ok th) :
    (monitorIteration interval elapsed env address run validate now).sleepSeconds =
      max 0 (interval - elapsed)
    ∧ (monitorIteration 900 100 env address run validate now).sleepSeconds = 800
    ∧ (monitorIteration 900 950 env address run validate now).sleepSeconds = 0
    ∧ ∀ (i e : ℚ) (env2 : ThresholdEnv),
        0 ≤ (monitorIteration i e env2 address run validate now).sleepSeconds := by
  obtain ⟨r, hc⟩ := check_provider_data_isOk env (some address) (some address)
    run validate now th hth
  refine ⟨by simp [monitorIteration, hc], ?_, ?_, ?_⟩
  · simp only [monitorIteration, hc]
    norm_num
  · simp only [monitorIteration, hc]
    norm_num
  · intro i e env2
    cases hc2 : check_provider_data env2 (some address) (some address) run validate now with
    | error m => simp [monitorIteration, hc2]
    | ok r2 =>
      simp only [monitorIteration, hc2]
      exact le_max_left 0 (i - e)

/-- Witness for C5 at the default environment with a successful fetch. -/
theorem sleep_duration_max_witness :
    (monitorIteration 900 100 envNone "providerA" (.finished (some "raw"))
      okValidate "ts").sleepSeconds = 800
    ∧ (monitorIteration 900 950 envNone "providerA" (.finished (some "raw"))
      okValidate "ts").sleepSeconds = 0 :=
  ⟨(sleep_duration_max 900 100 envNone "providerA" "ts" (.finished (some "raw"))
      okValidate DEFAULT_THRESHOLDS rfl).2.1,
   (sleep_duration_max 900 950 envNone "providerA" "ts" (.finished (some "raw"))
      okValidate DEFAULT_THRESHOLDS rfl).2.2.1⟩

/-- C6 counterexample: with both credentials present and the single post
returning HTTP status 304 — which is not a 2xx status — the function returns
`true`, contradicting the claim that any non-2xx status yields `false`
(`raise_for_status` raises only for 4xx/5xx). -/
theorem send_alert_non_2xx_returns_true :
    (send_telegram_alert (some "token") (some "chat") "msg"
      (.response 304)).returned = true
    ∧ ¬(200 ≤ 304 ∧ 304 < 300) := by
  exact ⟨rfl, by decide⟩

/-- C6 amended: `send_telegram_alert` never raises; if the bot token or chat
id is falsy it performs no network call and returns `false`; otherwise it
makes exactly one delivery attempt with a 10-second timeout and returns
`true` exactly when the post yields a response whose status is not a 4xx/5xx
(`raise_for_status`), returning `false` on timeout, network error, or a
4xx/5xx status. -/
theorem send_telegram_alert_spec (token chatId : Option String) (message : String)
    (outcome : HttpOutcome) :
    ((pyTruthy token = false ∨ pyTruthy chatId = false) →
      send_telegram_alert token chatId message outcome =
        { request := none, returned := false })
    ∧ (pyTruthy token = true → pyTruthy chatId = true →
      (send_telegram_alert token chatId message outcome).request =
        some { url := "https://api.telegram.org/bot" ++ token.getD "" ++ "/sendMessage"
               chat_id := chatId.getD ""
               text := message
               parse_mode := "Markdown"
               timeoutSeconds := 10 }
      ∧ ((send_telegram_alert token chatId message outcome).returned = true ↔
          ∃ status, outcome = .response status ∧ raiseForStatus status = false)) := by
  constructor
  · rintro (h | h) <;> simp [send_telegram_alert, h]
  · intro ht hc
    constructor
    · cases outcome with
      | failure m => simp [send_telegram_alert, ht, hc]
      | response s =>
        cases hs : raiseForStatus s <;> simp [send_telegram_alert, ht, hc, hs]
    · cases outcome with
      | failure m => simp [send_telegram_alert, ht, hc]
      | response s =>
        cases hs : raiseForStatus s <;> simp [send_telegram_alert, ht, hc, hs]

/-- Witness for the amended C6: a missing token skips the call; with both
credentials the request carries the 10-second timeout and a 200 response
returns `true`. -/
theorem send_telegram_alert_spec_witness :
    send_telegram_alert none (some "chat") "msg" (.response 200) =
      { request := none, returned := false }
    ∧ (send_telegram_alert (some "token") (some "chat") "msg"
        (.response 200)).request =
      some { url := "https://api.telegram.org/bot" ++ (some "token").getD ""
               ++ "/sendMessage"
             chat_id := (some "chat").getD ""
             text := "msg"
             parse_mode := "Markdown"
             timeoutSeconds := 10 }
    ∧ (send_telegram_alert (some "token") (some "chat") "msg"
        (.response 200)).returned = true := by
  have h := (send_telegram_alert_spec (some "token") (some "chat") "msg"
    (.response 200)).2 rfl rfl
  exact ⟨(send_telegram_alert_spec none (some "chat") "msg" (.response 200)).1
      (Or.inl rfl),
    h.1, h.2.mpr ⟨200, rfl, rfl⟩⟩

/-- C7 counterexample: `MIN_AVAILABILITY_6H="abc"` is unparsable, and the
threshold computation raises the `float` conversion error instead of using
the stated default 90; and `"900.5"` is a parsable float literal, yet
`MONITORING_INTERVAL="900.5"` raises because the interval is parsed with
`int`, not `float`. -/
theorem config_parsing_counterexample :
    parsePyFloat "abc" = none
    ∧ thresholdValue (some "abc") 90 =
        .error ("could not convert string to float: " ++ "abc")
    ∧ (parsePyFloat "900.5").isSome = true
    ∧ parseInterval (some "900.5") =
        .error ("invalid literal for int() with base 10: " ++ "900.5") := by
  refine ⟨rfl, rfl, by decide, rfl⟩

/-- C7 amended: each threshold override is parsed as a float with the default
used when the variable is absent or empty, but a present unparsable value
raises a conversion error rather than falling back to the default; and
`MONITORING_INTERVAL` is parsed as an int (not a float), with the 900 default
only when absent and an error on an unparsable value. -/
theorem config_parsing_spec (s : String) (d q : ℚ) (n : Int) :
    thresholdValue none d = .ok d
    ∧ thresholdValue (some "") d = .ok d
    ∧ (parsePyFloat s = some q → s ≠ "" → thresholdValue (some s) d = .ok q)
    ∧ (parsePyFloat s = none → s ≠ "" →
        thresholdValue (some s) d = .error ("could not convert string to float: " ++ s))
    ∧ parseInterval none = .ok 900
    ∧ (parsePyInt s = some n → parseInterval (some s) = .ok n)
    ∧ (parsePyInt s = none →
        parseInterval (some s) = .error ("invalid literal for int() with base 10: " ++ s))
    ∧ get_thresholds envNone = .ok DEFAULT_THRESHOLDS := by
  have htruthy : ∀ t : String, t ≠ "" → pyTruthy (some t) = true := by
    intro t ht
    have hte : t.isEmpty = false := by
      rw [Bool.eq_false_iff]
      exact fun hh => ht ((String.isEmpty_iff t).mp hh)
    simp [pyTruthy, hte]
  refine ⟨rfl, rfl, fun hp hs => ?_, fun hp hs => ?_, rfl, fun hp => ?_, fun hp => ?_, rfl⟩
  · simp [thresholdValue, htruthy s hs, hp]
  · simp [thresholdValue, htruthy s hs, hp]
  · simp [parseInterval, hp]
  · simp [parseInterval, hp]

/-- Witness for the amended C7 at concrete configuration strings. -/
theorem config_parsing_spec_witness :
    thresholdValue none 90 = .ok 90
    ∧ thresholdValue (some "95") 90 = .ok 95
    ∧ parseInterval (some "600") = .ok 600
    ∧ parseInterval (some "x") =
        .error ("invalid literal for int() with base 10: " ++ "x") := by
  refine ⟨(config_parsing_spec "95" 90 95 600).1, ?_, ?_, ?_⟩
  · exact (config_parsing_spec "95" 90 95 600).2.2.1 (by decide) (by decide)
  · exact (config_parsing_spec "600" 90 0 600).2.2.2.2.2.1 (by decide)
  · exact (config_parsing_spec "x" 90 0 0).2.2.2.2.2.2.1 (by decide)

/-- C9 counterexample: with `MIN_AVAILABILITY_6H="abc"`, `get_thresholds()`
runs before the try block of `check_provider_data`, so its conversion error
propagates to the caller instead of a returned pair. -/
theorem check_provider_data_raises :
    check_provider_data envBad (some "providerA") (some "providerA")
        (.finished (some "raw")) okValidate "ts" =
      .error ("could not convert string to float: " ++ "abc") := rfl

/-- C9 amended: apart from threshold parsing — which runs outside the try
block and propagates — `check_provider_data` never propagates a failure:
whenever `get_thresholds` succeeds it returns a pair, on fetch success the
snapshot with its (possibly empty) violation list, and on any fetch failure
`none` with a one-element list holding the error message. -/
theorem check_provider_data_returns_pair (env : ThresholdEnv)
    (custom envAddr : Option String) (run : AgentRunOutcome)
    (validate : String → Except String WebpageInfo) (now : String)
    (th : Thresholds) (hth : get_thresholds env = .ok th) :
    ∃ r, check_provider_data env custom envAddr run validate now = .ok r
      ∧ ((∃ d, get_provider_monitor_data custom envAddr run validate = .ok d
            ∧ r.providerData = some d ∧ r.alerts = evaluateAlerts d th)
        ∨ (∃ e, get_provider_monitor_data custom envAddr run validate = .error e
            ∧ r.providerData = none
            ∧ r.alerts = ["Error checking provider data: " ++ e.pythonMessage])) := by
  unfold check_provider_data
  rw [hth]
  cases hg : get_provider_monitor_data custom envAddr run validate with
  | error e => exact ⟨_, rfl, Or.inr ⟨e, rfl, rfl, rfl⟩⟩
  | ok d =>
    dsimp only
    split
    · exact ⟨_, rfl, Or.inl ⟨d, rfl, rfl, rfl⟩⟩
    · exact ⟨_, rfl, Or.inl ⟨d, rfl, rfl, rfl⟩⟩

/-- Witness for the amended C9 at a concrete failing fetch. -/
theorem check_provider_data_returns_pair_witness :
    ∃ r, check_provider_data envNone (some "providerA") (some "providerA")
          (.throws "boom") okValidate "ts" = .ok r
      ∧ ((∃ d, get_provider_monitor_data (some "providerA") (some "providerA")
              (.throws "boom") okValidate = .ok d
            ∧ r.providerData = some d ∧ r.alerts = evaluateAlerts d DEFAULT_THRESHOLDS)
        ∨ (∃ e, get_provider_monitor_data (some "providerA") (some "providerA")
              (.throws "boom") okValidate = .error e
            ∧ r.providerData = none
            ∧ r.alerts = ["Error checking provider data: " ++ e.pythonMessage])) :=
  check_provider_data_returns_pair envNone (some "providerA") (some "providerA")
    (.throws "boom") okValidate "ts" DEFAULT_THRESHOLDS rfl

/-- C4 counterexample: a cycle whose fetch throws, with interval 900 and
elapsed 100: the error alert is dispatched, but the loop sleeps
`max(0, 900 - 100) = 800` seconds, not the claimed fixed 60-second
fallback. -/
theorem monitor_fallback_counterexample :
    (monitorIteration 900 100 envNone "providerA" (.throws "boom")
      okValidate "ts").dispatched.length = 1
    ∧ (monitorIteration 900 100 envNone "providerA" (.throws "boom")
      okValidate "ts").sleepSeconds = 800
    ∧ (800 : ℚ) ≠ 60 := by
  have hc : check_provider_data envNone (some "providerA") (some "providerA")
      (.throws "boom") okValidate "ts" =
      .ok { providerData := none
            alerts := ["Error checking provider data: "
              ++ (FetchError.agentError "boom").pythonMessage]
            dispatched := ["*FLARE PROVIDER MONITOR ERROR*\n\nError checking provider data: "
              ++ (FetchError.agentError "boom").pythonMessage] } := rfl
  refine ⟨by simp [monitorIteration, hc], ?_, by norm_num⟩
  simp only [monitorIteration, hc]
  norm_num

/-- C4 amended: a failure raised by the Fetcher during a cycle is caught
inside `check_provider_data`, which dispatches one error AlertMessage; the
loop then sleeps `max(0, interval - elapsed)`, not 60 seconds.  The fixed
60-second fallback applies only to exceptions escaping `check_provider_data`
(threshold parsing), and those dispatch no alert.  In either case the loop
continues — no such failure terminates the process. -/
theorem monitor_failure_handling (interval elapsed : ℚ) (env : ThresholdEnv)
    (address now : String) (run : AgentRunOutcome)
    (validate : String → Except String WebpageInfo) (th : Thresholds)
    (e : FetchError) (hth : get_thresholds env = .ok th)
    (hfe : get_provider_monitor_data (some address) (some address) run validate =
      .error e) :
    (monitorIteration interval elapsed env address run validate now).dispatched =
      ["*FLARE PROVIDER MONITOR ERROR*\n\nError checking provider data: "
        ++ e.pythonMessage]
    ∧ (monitorIteration interval elapsed env address run validate now).sleepSeconds =
      max 0 (interval - elapsed)
    ∧ (∀ (env2 : ThresholdEnv) (m : String), get_thresholds env2 = .error m →
        monitorIteration interval elapsed env2 address run validate now =
          { dispatched := [], sleepSeconds := 60, continues := true })
    ∧ (monitorIteration interval elapsed env address run validate now).continues =
      true := by
  have hc : check_provider_data env (some address) (some address) run validate now =
      .ok { providerData := none
            alerts := ["Error checking provider data: " ++ e.pythonMessage]
            dispatched := ["*FLARE PROVIDER MONITOR ERROR*\n\nError checking provider data: "
              ++ e.pythonMessage] } := by
    unfold check_provider_data
    rw [hth, hfe]
    rfl
  refine ⟨by simp [monitorIteration, hc], by simp [monitorIteration, hc],
    fun env2 m hth2 => ?_, by simp [monitorIteration, hc]⟩
  have hc2 : check_provider_data env2 (some address) (some address) run validate now =
      .error m := by
    unfold check_provider_data
    rw [hth2]
  simp [monitorIteration, hc2]

/-- Witness for the amended C4: both failure paths at concrete inputs. -/
theorem monitor_failure_handling_witness :
    (monitorIteration 900 100 envNone "providerA" (.throws "boom")
      okValidate "ts").dispatched =
      ["*FLARE PROVIDER MONITOR ERROR*\n\nError checking provider data: "
        ++ (FetchError.agentError "boom").pythonMessage]
    ∧ monitorIteration 900 100 envBad "providerA" (.throws "boom") okValidate "ts" =
      { dispatched := [], sleepSeconds := 60, continues := true } := by
  have h := monitor_failure_handling 900 100 envNone "providerA" "ts"
    (.throws "boom") okValidate DEFAULT_THRESHOLDS (.agentError "boom") rfl rfl
  exact ⟨h.1, h.2.2.1 envBad ("could not convert string to float: " ++ "abc") rfl⟩

/-- C8 counterexample: with `PROVIDER_ADDRESS` unset, `monitor_loop`
dispatches one error alert and returns; the process then completes `main`
and exits 0 with no external interruption, so there is a configuration under
which the process reaches a terminal state on its own. -/
theorem monitor_loop_early_exit :
    monitorLoopStart none none =
      .earlyReturn
        ["*FLARE PROVIDER MONITOR ERROR*\n\nPROVIDER_ADDRESS environment variable is not set!"] :=
  rfl

/-- C8 amended: when `PROVIDER_ADDRESS` is truthy and `MONITORING_INTERVAL`
parses, `monitor_loop` enters the `while True` loop and every iteration
continues regardless of outcome (the body is wrapped in `except Exception`),
so the loop never terminates on its own; a falsy address instead makes the
coroutine return on its own after dispatching an error alert. -/
theorem monitor_loop_no_termination (envInterval envAddr : Option String) (n : Int)
    (hn : parseInterval envInterval = .ok n) (ha : pyTruthy envAddr = true) :
    monitorLoopStart envInterval envAddr = .entersLoop n (envAddr.getD "")
    ∧ (∀ (interval elapsed : ℚ) (env : ThresholdEnv) (address now : String)
        (run : AgentRunOutcome) (validate : String → Except String WebpageInfo),
        (monitorIteration interval elapsed env address run validate now).continues =
          true)
    ∧ (∀ envAddr2, pyTruthy envAddr2 = false →
        monitorLoopStart envInterval envAddr2 =
          .earlyReturn
            ["*FLARE PROVIDER MONITOR ERROR*\n\nPROVIDER_ADDRESS environment variable is not set!"]) := by
  refine ⟨by simp [monitorLoopStart, hn, ha], ?_, fun a2 h2 => by simp [monitorLoopStart, hn, h2]⟩
  intro interval elapsed env address now run validate
  cases hc : check_provider_data env (some address) (some address) run validate now with
  | error m => simp [monitorIteration, hc]
  | ok r => simp [monitorIteration, hc]

/-- Witness for the amended C8: the loop is entered at a concrete valid
configuration and a concrete failing iteration continues. -/
theorem monitor_loop_no_termination_witness :
    monitorLoopStart (some "600") (some "providerA") = .entersLoop 600 "providerA"
    ∧ (monitorIteration 900 100 envBad "providerA" (.throws "boom")
        okValidate "ts").continues = true := by
  have h := monitor_loop_no_termination (some "600") (some "providerA") 600 rfl rfl
  exact ⟨h.1, h.2.1 900 100 envBad "providerA" "ts" (.throws "boom") okValidate⟩

end FlareMonitor
